import Mathlib

/-!
Shallow embedding of `fednode.py`, the lifecycle manager of a Counterparty
federated node.  The script is a single `main` function dispatching on a
command-line verb; all externally visible behaviour consists of
  - a trace of calls to the outside world (git, docker-compose, docker,
    the filesystem copy of default config files, TCP port probes), and
  - the state of the single persisted configuration record
    `.fednode.config` (the "Installed Configuration"),
  - the process exit code (`sys.exit(1)` on errors, normal return on
    success).
We model the outside world as an `Env` of oracles (does the config file
exist, which ports answer a TCP connect, which checkout directories
exist, what `git symbolic-ref --short -q HEAD` prints per checkout, the
ids printed by `docker ps -a -q` and `docker images -q`), and `main` as a
pure function from verb and environment to an `Outcome`: the ordered
event trace, the exit code (`some 1` for `sys.exit(1)`, `none` for a
normal return), and the final contents of the configuration record.

Modelling notes, all grounded in the source:
  - the root / `logname` preamble (lines 109-115) only decides whether
    git commands are wrapped in `sudo -u <user> bash -c ...`; the git
    operations performed are the same either way, so the wrapper is not
    part of the event trace;
  - the environment exports `FEDNODE_RELEASE_TAG` / `HOSTNAME_BASE`
    (lines 156-157) are process-local and consumed by docker-compose
    variable substitution; they mutate no durable state and are omitted;
  - Python `str.replace` replaces every non-overlapping occurrence left
    to right; `pyReplace` below implements exactly that (the script only
    calls it with non-empty patterns);
  - `docker ps -a -q` output is modelled post-`split('\n')`, hence the
    empty-string entries that the script skips are representable.
-/

namespace Fednode

/-- One externally visible action performed by the script. -/
inductive Event where
  | configWrite (branch config : String)
  | configRemove
  | portProbe (port : Nat)
  | gitClone (branch url dir : String)
  | gitBranchQuery (dir : String)
  | gitPull (dir branch : String)
  | composeCmd (cmd : String)
  | copyDefault (src dst : String)
  | dockerRm (container : String)
  | dockerRmi (image : String)
  | dockerExecList (service : String) (cmd : List String)
  | dockerExecQuoted (service cmd : String)
  | dockerShell (service : String)
deriving DecidableEq, Repr

/-- The outside world as the script observes it at the start of a run. -/
structure Env where
  scriptDir : String
  configExists : Bool
  configBranch : String
  configConfig : String
  portOpen : Nat → Bool
  dirExists : String → Bool
  fileExists : String → Bool
  gitBranch : String → String
  defaultConfigs : List String
  dockerContainers : List String
  dockerImages : List String
  shellAttachExitCode : String → Nat

/-- The parsed command line (`parse_args`), one constructor per subcommand. -/
inductive Command where
  | install (config branch : String) (useSshUris : Bool)
  | uninstall
  | start (services : List String)
  | stop (services : List String)
  | restart (services : List String)
  | reparse (service : String)
  | ps
  | tail (services : List String)
  | logs (services : List String)
  | exec (service : String) (cmd : List String)
  | shell (service : String)
  | update (noRestart : Bool) (services : List String)
  | rebuild (services : List String)
  | docker_clean
deriving DecidableEq, Repr

/-- Result of a run: the event trace in order, the exit code
(`some n` for `sys.exit(n)`, `none` for a normal return, i.e. exit 0),
and the final contents of the configuration record as
`(branch, config)`. -/
structure Outcome where
  events : List Event
  exitCode : Option Nat
  configFile : Option (String × String)
deriving DecidableEq, Repr

def REPOS_BASE : List String := ["counterparty-lib", "counterparty-cli"]

def REPOS_COUNTERBLOCK : List String := REPOS_BASE ++ ["counterblock"]

def REPOS_FULL : List String := REPOS_COUNTERBLOCK ++ ["counterwallet", "armory-utxsvr"]

/-- The `HOST_PORTS_USED` dict; the script only ever looks up the three
profile keys below (argparse restricts `config` to them). -/
def HOST_PORTS_USED (buildConfig : String) : List Nat :=
  if buildConfig = "base" then [8332, 18332, 4000, 14000]
  else if buildConfig = "counterblock" then [8332, 18332, 4000, 14000, 4100, 14100]
  else if buildConfig = "full" then [8332, 18332, 4000, 14000, 4100, 14100, 80, 443]
  else []

def UPDATE_CHOICES : List String :=
  ["counterparty", "counterparty-testnet", "counterblock", "counterblock-testnet",
   "counterwallet", "armory-utxsvr", "armory-utxsvr-testnet"]

def REPARSE_CHOICES : List String :=
  ["counterparty", "counterparty-testnet", "counterblock", "counterblock-testnet"]

/-- Line 172: profile to repositories to clone. -/
def reposFor (buildConfig : String) : List String :=
  if buildConfig = "base" then REPOS_BASE
  else if buildConfig = "counterblock" then REPOS_COUNTERBLOCK
  else REPOS_FULL

def repoURLHttps (repo : String) : String :=
  "https://github.com/CounterpartyXCP/" ++ repo ++ ".git"

def repoURLSsh (repo : String) : String :=
  "git@github.com:CounterpartyXCP/" ++ repo ++ ".git"

def pathJoin (a b : String) : String := a ++ "/" ++ b

/-- `os.path.join(SCRIPTDIR, "src", d)`. -/
def srcPath (env : Env) (d : String) : String := pathJoin (pathJoin env.scriptDir "src") d

/-- Fuel-indexed worker for `pyReplace`; the fuel is the length of the
remaining input, which bounds the number of steps since every step
consumes at least one character. -/
def pyReplaceAux (pat rep : List Char) : Nat → List Char → List Char
  | 0, l => l
  | _ + 1, [] => []
  | fuel + 1, c :: cs =>
    if pat ≠ [] ∧ pat.isPrefixOf (c :: cs) = true then
      rep ++ pyReplaceAux pat rep fuel (List.drop pat.length (c :: cs))
    else
      c :: pyReplaceAux pat rep fuel cs

/-- Python `s.replace(old, new)`: replace every non-overlapping
occurrence of `old` in `s` by `new`, scanning left to right.  (The
script never calls it with an empty `old`.) -/
def pyReplace (s old new : String) : String :=
  String.mk (pyReplaceAux old.data new.data s.data.length s.data)

/-- Lines 166-169: probe each reserved port in order with a TCP connect
(`is_port_open`); stop at the first port that answers.  Returns the
probes actually performed and the first conflicting port, if any. -/
def checkPorts (portOpen : Nat → Bool) : List Nat → List Event × Option Nat
  | [] => ([], none)
  | p :: rest =>
    if portOpen p then ([Event.portProbe p], some p)
    else
      let r := checkPorts portOpen rest
      (Event.portProbe p :: r.1, r.2)

/-- Lines 173-181: clone each required repository whose checkout
directory under `SCRIPTDIR/src` does not exist yet. -/
def cloneEvents (env : Env) (useSshUris : Bool) (branch : String) : List String → List Event
  | [] => []
  | repo :: rest =>
    let url := if useSshUris then repoURLSsh repo else repoURLHttps repo
    let dir := srcPath env repo
    (if env.dirExists dir then [] else [Event.gitClone branch url dir])
      ++ cloneEvents env useSshUris branch rest

/-- Lines 187-193: for every `*.default` file found under `config/`,
materialise the active config by copying when it is missing. -/
def copyDefaultEvents (env : Env) : List String → List Event
  | [] => []
  | d :: rest =>
    let active := pyReplace d ".default" ""
    (if env.fileExists active then [] else [Event.copyDefault d active])
      ++ copyDefaultEvents env rest

/-- Lines 245-248: the checkout directories of one repository family;
`counterparty` is the special case spanning the library and CLI
checkouts, every other family is a single checkout named after itself. -/
def serviceDirs (serviceBase : String) : List String :=
  if serviceBase = "counterparty" then ["counterparty-lib", "counterparty-cli"]
  else [serviceBase]

/-- Lines 249-259: for each checkout of a family, query its current
branch (`git symbolic-ref --short -q HEAD`); an empty answer (detached
HEAD) aborts the run (`sys.exit(1)`) before any pull of that checkout;
otherwise pull `origin <branch>`.  Returns the events and whether all
checkouts were processed. -/
def syncDirs (env : Env) : List String → List Event × Bool
  | [] => ([], true)
  | dir :: rest =>
    let path := srcPath env dir
    let branch := env.gitBranch path
    if branch = "" then ([Event.gitBranchQuery path], false)
    else
      let r := syncDirs env rest
      (Event.gitBranchQuery path :: Event.gitPull path branch :: r.1, r.2)

/-- Lines 231-235: the first requested service not in `UPDATE_CHOICES`,
in request order. -/
def firstInvalidService : List String → Option String
  | [] => none
  | s :: rest => if s ∈ UPDATE_CHOICES then firstInvalidService rest else some s

/-- Lines 239-263: the update work loop.  Pops services in order; a
service's repository family (its name with the `-testnet` suffix
stripped) is synced only if not already in the `gitHasUpdated`
accumulator; afterwards the originally requested service is restarted
unless `--no-restart` was given.  A failed branch query aborts the whole
run (`some 1`), keeping the events emitted so far. -/
def updateLoop (env : Env) (noRestart : Bool) :
    List String → List String → List Event × Option Nat
  | [], _ => ([], none)
  | service :: rest, gitHasUpdated =>
    let serviceBase := pyReplace service "-testnet" ""
    let restartEvs :=
      if noRestart then [] else [Event.composeCmd ("restart " ++ service)]
    if serviceBase ∈ gitHasUpdated then
      let r := updateLoop env noRestart rest gitHasUpdated
      (restartEvs ++ r.1, r.2)
    else
      let s := syncDirs env (serviceDirs serviceBase)
      if s.2 then
        let r := updateLoop env noRestart rest (gitHasUpdated ++ [serviceBase])
        (s.1 ++ restartEvs ++ r.1, r.2)
      else (s.1, some 1)

/-- Lines 229-263, the whole `update` verb.  `services = []` models the
argparse default (no service argument given, `args.services` is the
empty string, which iterates to nothing and has length 0); a non-empty
list models the services actually passed.  Note the validation guard is
literally `if args.services != ['',]:`, so the list consisting of
exactly one empty string skips validation. -/
def updateCmd (env : Env) (noRestart : Bool) (services : List String) :
    List Event × Option Nat :=
  if services ≠ [""] ∧ (firstInvalidService services).isSome then ([], some 1)
  else
    let servicesToUpdate := if services.length = 0 then UPDATE_CHOICES else services
    updateLoop env noRestart servicesToUpdate []

def joinServices (services : List String) : String := String.intercalate " " services

/-- Line 219: `re.match("['\"].*?['\"]", s)` succeeds exactly when the
first character is a quote and some later character is a quote. -/
def matchQuotedCmd (s : String) : Bool :=
  match s.data with
  | [] => false
  | c :: rest =>
    (c = Char.ofNat 39 || c = Char.ofNat 34)
      && rest.any (fun d => d = Char.ofNat 39 || d = Char.ofNat 34)

/-- Lines 218-223: the `exec` verb either passes the singleton
pre-quoted command through unchanged (as the Python list object) or
joins and re-quotes the words. -/
def execEvent (service : String) (cmd : List String) : Event :=
  match cmd with
  | [c] =>
    if matchQuotedCmd c then Event.dockerExecList service cmd
    else Event.dockerExecQuoted service (pyReplace c "\"" "\\\"")
  | _ => Event.dockerExecQuoted service (pyReplace (joinServices cmd) "\"" "\\\"")

/-- Lines 206-211: stop the service, then re-run it with the reparse
directive matching its kind. -/
def reparseEvents (service : String) : List Event :=
  Event.composeCmd ("stop " ++ service) ::
    (if service = "counterparty" ∨ service = "counterparty-testnet" then
      [Event.composeCmd ("run -e COMMAND=reparse " ++ service)]
    else if service = "counterblock" ∨ service = "counterblock-testnet" then
      [Event.composeCmd ("run -e EXTRA_PARAMS=\"--reparse\" " ++ service)]
    else [])

/-- Lines 224-228: try to attach a shell; on a non-zero exit fall back
to a disposable container with a bash entrypoint. -/
def shellEvents (env : Env) (service : String) : List Event :=
  Event.dockerShell service ::
    (if env.shellAttachExitCode service ≠ 0 then
      [Event.composeCmd ("run --no-deps --entrypoint bash " ++ service)]
    else [])

/-- The configuration record contents when the run starts installed. -/
def installedFile (env : Env) : Option (String × String) :=
  some (env.configBranch, env.configConfig)

/-- Lines 136-141: every verb except `install` (and `docker_clean`,
which is dispatched before this check) refuses to run when the
configuration record does not exist: `sys.exit(1)` with nothing done. -/
def requireConfig (env : Env) (out : Outcome) : Outcome :=
  if env.configExists then out
  else { events := [], exitCode := some 1, configFile := none }

/-- The whole of `main` (after the root-privilege preamble), lines
117-266, as a function from parsed command and environment to the run
outcome. -/
def mainRun (env : Env) (cmd : Command) : Outcome :=
  match cmd with
  | .docker_clean =>
    { events :=
        (env.dockerContainers.filter (fun c => c ≠ "")).map Event.dockerRm
          ++ (env.dockerImages.filter (fun i => i ≠ "")).map Event.dockerRmi,
      exitCode := some 1,
      configFile := if env.configExists then installedFile env else none }
  | .install cfg br useSshUris =>
    if env.configExists then
      { events := [], exitCode := some 1, configFile := installedFile env }
    else
      let pc := checkPorts env.portOpen (HOST_PORTS_USED cfg)
      if pc.2.isSome then
        { events := Event.configWrite br cfg :: pc.1,
          exitCode := some 1, configFile := some (br, cfg) }
      else
        { events := Event.configWrite br cfg :: pc.1
            ++ cloneEvents env useSshUris br (reposFor cfg)
            ++ [Event.composeCmd "pull --ignore-pull-failures"]
            ++ copyDefaultEvents env env.defaultConfigs
            ++ [Event.composeCmd "up -d"],
          exitCode := none, configFile := some (br, cfg) }
  | .uninstall =>
    requireConfig env
      { events := [Event.composeCmd "down", Event.configRemove],
        exitCode := none, configFile := none }
  | .start services =>
    requireConfig env
      { events := [Event.composeCmd ("start " ++ joinServices services)],
        exitCode := none, configFile := installedFile env }
  | .stop services =>
    requireConfig env
      { events := [Event.composeCmd ("stop " ++ joinServices services)],
        exitCode := none, configFile := installedFile env }
  | .restart services =>
    requireConfig env
      { events := [Event.composeCmd ("restart " ++ joinServices services)],
        exitCode := none, configFile := installedFile env }
  | .reparse service =>
    requireConfig env
      { events := reparseEvents service,
        exitCode := none, configFile := installedFile env }
  | .ps =>
    requireConfig env
      { events := [Event.composeCmd "ps"],
        exitCode := none, configFile := installedFile env }
  | .tail services =>
    requireConfig env
      { events := [Event.composeCmd ("logs -f --tail=50 " ++ joinServices services)],
        exitCode := none, configFile := installedFile env }
  | .logs services =>
    requireConfig env
      { events := [Event.composeCmd ("logs " ++ joinServices services)],
        exitCode := none, configFile := installedFile env }
  | .exec service cmd =>
    requireConfig env
      { events := [execEvent service cmd],
        exitCode := none, configFile := installedFile env }
  | .shell service =>
    requireConfig env
      { events := shellEvents env service,
        exitCode := none, configFile := installedFile env }
  | .update noRestart services =>
    requireConfig env
      { events := (updateCmd env noRestart services).1,
        exitCode := (updateCmd env noRestart services).2,
        configFile := installedFile env }
  | .rebuild services =>
    requireConfig env
      { events :=
          [Event.composeCmd ("pull --ignore-pull-failures " ++ joinServices services),
           Event.composeCmd ("up -d --build --force-recreate --no-deps " ++ joinServices services)],
        exitCode := none, configFile := installedFile env }

/-- Is the event a TCP port probe? -/
def Event.isPortProbe : Event → Bool
  | .portProbe _ => true
  | _ => false

/-- Is the event a `git clone`? -/
def Event.isGitClone : Event → Bool
  | .gitClone _ _ _ => true
  | _ => false

/-- Is the event a `git pull`? -/
def Event.isGitPull : Event → Bool
  | .gitPull _ _ => true
  | _ => false

/-- Is the event a call to the container-orchestration backend
(`run_compose_cmd`)? -/
def Event.isComposeCmd : Event → Bool
  | .composeCmd _ => true
  | _ => false

/-- A benign environment: not installed, all ports free, no checkouts
present, every checkout reports branch `master`, host clean. -/
def envFreePorts : Env where
  scriptDir := "/fednode"
  configExists := false
  configBranch := ""
  configConfig := ""
  portOpen := fun _ => false
  dirExists := fun _ => false
  fileExists := fun _ => false
  gitBranch := fun _ => "master"
  defaultConfigs := []
  dockerContainers := []
  dockerImages := []
  shellAttachExitCode := fun _ => 0

/-- Not installed, but a process already listens on host port 8332. -/
def envBound : Env := { envFreePorts with portOpen := fun p => p = 8332 }

/-- Installed with `{branch: master, config: base}`; every checkout
reports branch `master`. -/
def envInstalled : Env :=
  { envFreePorts with configExists := true, configBranch := "master", configConfig := "base" }

/-- Installed, but the `counterblock` checkout is in a detached-HEAD
state (its branch query answers the empty string). -/
def envDetached : Env :=
  { envInstalled with
      gitBranch := fun d => if d = "/fednode/src/counterblock" then "" else "master" }

/-- Not installed; the host carries one container and one image (the
trailing empty strings model the final newline of the `docker` output
split). -/
def envDirtyHost : Env :=
  { envFreePorts with dockerContainers := ["c1", ""], dockerImages := ["i1", ""] }

theorem checkPorts_all_probe (portOpen : Nat → Bool) (ports : List Nat) :
    (checkPorts portOpen ports).1.all Event.isPortProbe = true := by
  induction ports with
  | nil => rfl
  | cons p rest ih =>
    by_cases h : portOpen p <;>
      simp [checkPorts, h, Event.isPortProbe, ih]

theorem checkPorts_conflict (portOpen : Nat → Bool) (ports : List Nat)
    (h : ports.any portOpen = true) :
    (checkPorts portOpen ports).2.isSome = true := by
  induction ports with
  | nil => simp at h
  | cons p rest ih =>
    by_cases hp : portOpen p
    · simp [checkPorts, hp]
    · simp only [List.any_cons, hp, Bool.false_or] at h
      simp [checkPorts, hp, ih h]

theorem firstInvalidService_eq_none (services : List String)
    (hv : ∀ s ∈ services, s ∈ UPDATE_CHOICES) :
    firstInvalidService services = none := by
  induction services with
  | nil => rfl
  | cons s rest ih =>
    simp [firstInvalidService, hv s (by simp),
      ih (fun t ht => hv t (by simp [ht]))]

theorem updateCmd_valid (env : Env) (noRestart : Bool) (services : List String)
    (hv : ∀ s ∈ services, s ∈ UPDATE_CHOICES) (hne : services ≠ []) :
    updateCmd env noRestart services = updateLoop env noRestart services [] := by
  unfold updateCmd
  rw [firstInvalidService_eq_none services hv]
  simp [List.length_eq_zero, hne]

theorem syncDirs_snd_true (env : Env) (dirs : List String)
    (h : ∀ d ∈ dirs, env.gitBranch (srcPath env d) ≠ "") :
    (syncDirs env dirs).2 = true := by
  induction dirs with
  | nil => rfl
  | cons d rest ih =>
    simp [syncDirs, h d (by simp), ih (fun t ht => h t (by simp [ht]))]

theorem syncDirs_filter_pull (env : Env) (dirs : List String)
    (h : ∀ d ∈ dirs, env.gitBranch (srcPath env d) ≠ "") :
    (syncDirs env dirs).1.filter Event.isGitPull =
      dirs.map (fun d => Event.gitPull (srcPath env d) (env.gitBranch (srcPath env d))) := by
  induction dirs with
  | nil => rfl
  | cons d rest ih =>
    simp [syncDirs, h d (by simp), Event.isGitPull,
      ih (fun t ht => h t (by simp [ht]))]

theorem syncDirs_filter_compose (env : Env) (dirs : List String) :
    (syncDirs env dirs).1.filter Event.isComposeCmd = [] := by
  induction dirs with
  | nil => rfl
  | cons d rest ih =>
    by_cases h : env.gitBranch (srcPath env d) = "" <;>
      simp [syncDirs, h, Event.isComposeCmd, ih]

theorem serviceDirs_ne_nil (b : String) : serviceDirs b ≠ [] := by
  unfold serviceDirs
  split <;> simp

/-- C1, counterexample: with no prior configuration and host port 8332
already bound, `install base master` fails in the port preflight, yet
the run has already created the Installed Configuration record (the
`configWrite` event precedes the probe, and the record survives the
failure) — refuting the claim that preflight failure guarantees that no
durable state, including the record, has been created. -/
theorem c1_counterexample :
    mainRun envBound (Command.install "base" "master" false) =
      { events := [Event.configWrite "master" "base", Event.portProbe 8332],
        exitCode := some 1, configFile := some ("master", "base") } := by
  decide

/-- C1, amended: during `install` with no prior record, if some reserved
host port of the chosen profile is already bound, the run exits with
code 1 having performed no clone, no pull, no backend call and no config
materialisation — the only events are the write of the Installed
Configuration record followed by port probes — but that record has
already been written and survives the failure. -/
theorem c1_record_written_before_preflight (env : Env) (cfg br : String)
    (useSshUris : Bool) (hnc : env.configExists = false)
    (hport : (HOST_PORTS_USED cfg).any env.portOpen = true) :
    (mainRun env (Command.install cfg br useSshUris)).exitCode = some 1
    ∧ (∃ probes, (mainRun env (Command.install cfg br useSshUris)).events
          = Event.configWrite br cfg :: probes
        ∧ probes.all Event.isPortProbe = true)
    ∧ (mainRun env (Command.install cfg br useSshUris)).configFile = some (br, cfg) := by
  have hc := checkPorts_conflict env.portOpen (HOST_PORTS_USED cfg) hport
  simp only [mainRun, hnc, Bool.false_eq_true, if_false, hc, if_true]
  exact ⟨trivial,
    ⟨(checkPorts env.portOpen (HOST_PORTS_USED cfg)).1, rfl, checkPorts_all_probe _ _⟩,
    trivial⟩

/-- C1, witness: the amended theorem applied to `envBound`. -/
theorem c1_witness :
    (mainRun envBound (Command.install "base" "master" false)).exitCode = some 1
    ∧ (∃ probes, (mainRun envBound (Command.install "base" "master" false)).events
          = Event.configWrite "master" "base" :: probes
        ∧ probes.all Event.isPortProbe = true)
    ∧ (mainRun envBound (Command.install "base" "master" false)).configFile
        = some ("master", "base") :=
  c1_record_written_before_preflight envBound "base" "master" false (by decide) (by decide)

/-- C2, counterexample: with no Installed Configuration record,
`docker_clean` does not refuse to run — it removes the host's container
and image (and only then exits 1), refuting the claim that every verb
other than `install`, including `docker_clean`, fails with no action
when the record is absent. -/
theorem c2_counterexample :
    mainRun envDirtyHost Command.docker_clean =
      { events := [Event.dockerRm "c1", Event.dockerRmi "i1"],
        exitCode := some 1, configFile := none } := by
  decide

/-- C2, amended: every verb other than `install` and other than
`docker_clean` fails with exit code 1 and an empty event trace when no
Installed Configuration record exists; `docker_clean` is dispatched
before the record check and runs regardless. -/
theorem c2_precondition_for_other_verbs (env : Env) (cmd : Command)
    (hnc : env.configExists = false)
    (hni : ∀ c b s, cmd ≠ Command.install c b s)
    (hnd : cmd ≠ Command.docker_clean) :
    mainRun env cmd = { events := [], exitCode := some 1, configFile := none } := by
  cases cmd
  case install c b s => exact absurd rfl (hni c b s)
  case docker_clean => exact absurd rfl hnd
  all_goals simp [mainRun, requireConfig, hnc]

/-- C2, witness: the amended theorem applied to `uninstall` on a
not-installed environment. -/
theorem c2_witness :
    mainRun envFreePorts Command.uninstall =
      { events := [], exitCode := some 1, configFile := none } :=
  c2_precondition_for_other_verbs envFreePorts Command.uninstall rfl
    (fun _ _ _ h => Command.noConfusion h) (fun h => Command.noConfusion h)

/-- C3: for two requested services of the same repository family (equal
after stripping the `-testnet` suffix), one `update` run pulls the
family's checkouts exactly once — the pull events are exactly one per
checkout directory of the family — while issuing one backend restart per
requested service name, in request order; with `--no-restart` no backend
call is issued at all. -/
theorem c3_family_synced_once_restart_per_service (env : Env) (u v : String)
    (hu : u ∈ UPDATE_CHOICES) (hv : v ∈ UPDATE_CHOICES)
    (hbase : pyReplace u "-testnet" "" = pyReplace v "-testnet" "")
    (hbr : ∀ d, env.gitBranch d ≠ "") :
    (updateCmd env false [u, v]).1.filter Event.isGitPull =
        (serviceDirs (pyReplace u "-testnet" "")).map
          (fun d => Event.gitPull (srcPath env d) (env.gitBranch (srcPath env d)))
    ∧ (updateCmd env false [u, v]).1.filter Event.isComposeCmd =
        [Event.composeCmd ("restart " ++ u), Event.composeCmd ("restart " ++ v)]
    ∧ (updateCmd env true [u, v]).1.filter Event.isComposeCmd = []
    ∧ (updateCmd env false [u, v]).2 = none := by
  have hval : ∀ s ∈ [u, v], s ∈ UPDATE_CHOICES := by
    intro s hs
    rcases List.mem_cons.mp hs with rfl | hs
    · exact hu
    · rcases List.mem_cons.mp hs with rfl | hs
      · exact hv
      · cases hs
  have hdirs : ∀ d ∈ serviceDirs (pyReplace u "-testnet" ""),
      env.gitBranch (srcPath env d) ≠ "" := fun d _ => hbr _
  have hs2 : (syncDirs env (serviceDirs (pyReplace u "-testnet" ""))).2 = true :=
    syncDirs_snd_true env _ hdirs
  have h1 := updateCmd_valid env false [u, v] hval (by simp)
  have h2 := updateCmd_valid env true [u, v] hval (by simp)
  refine ⟨?_, ?_, ?_, ?_⟩
  · rw [h1]
    simp [updateLoop, ← hbase, hs2, List.filter_append,
      syncDirs_filter_pull env _ hdirs, Event.isGitPull]
  · rw [h1]
    simp [updateLoop, ← hbase, hs2, List.filter_append,
      syncDirs_filter_compose, Event.isComposeCmd]
  · rw [h2]
    simp [updateLoop, ← hbase, hs2, List.filter_append,
      syncDirs_filter_compose, Event.isComposeCmd]
  · rw [h1]
    simp [updateLoop, ← hbase, hs2]

/-- C3, witness: the theorem applied to the `counterparty` family pair
on the installed environment. -/
theorem c3_witness :
    (updateCmd envInstalled false ["counterparty", "counterparty-testnet"]).1.filter
        Event.isGitPull =
        (serviceDirs (pyReplace "counterparty" "-testnet" "")).map
          (fun d => Event.gitPull (srcPath envInstalled d)
            (envInstalled.gitBranch (srcPath envInstalled d)))
    ∧ (updateCmd envInstalled false ["counterparty", "counterparty-testnet"]).1.filter
        Event.isComposeCmd =
        [Event.composeCmd ("restart " ++ "counterparty"),
         Event.composeCmd ("restart " ++ "counterparty-testnet")]
    ∧ (updateCmd envInstalled true ["counterparty", "counterparty-testnet"]).1.filter
        Event.isComposeCmd = []
    ∧ (updateCmd envInstalled false ["counterparty", "counterparty-testnet"]).2 = none :=
  c3_family_synced_once_restart_per_service envInstalled "counterparty" "counterparty-testnet"
    (by decide) (by decide) (by decide) (fun _ => (by decide : ("master" : String) ≠ ""))

/-- C4: in one `update` run over two services of distinct repository
families, when the second family's checkouts are in a detached-HEAD
state (empty branch query) the run exits with code 1; the pull events of
the run are exactly those of the first family — the aborting checkout
was branch-queried but never pulled — so the family processed earlier
remains updated and is not rolled back. -/
theorem c4_detached_branch_aborts_keeps_earlier (env : Env) (u v : String)
    (hu : u ∈ UPDATE_CHOICES) (hv : v ∈ UPDATE_CHOICES)
    (hne : pyReplace u "-testnet" "" ≠ pyReplace v "-testnet" "")
    (hgood : ∀ d ∈ serviceDirs (pyReplace u "-testnet" ""),
      env.gitBranch (srcPath env d) ≠ "")
    (hbad : ∀ d ∈ serviceDirs (pyReplace v "-testnet" ""),
      env.gitBranch (srcPath env d) = "") :
    (updateCmd env false [u, v]).2 = some 1
    ∧ (updateCmd env false [u, v]).1.filter Event.isGitPull =
        (serviceDirs (pyReplace u "-testnet" "")).map
          (fun d => Event.gitPull (srcPath env d) (env.gitBranch (srcPath env d)))
    ∧ ∃ d ∈ serviceDirs (pyReplace v "-testnet" ""),
        Event.gitBranchQuery (srcPath env d) ∈ (updateCmd env false [u, v]).1 := by
  have hval : ∀ s ∈ [u, v], s ∈ UPDATE_CHOICES := by
    intro s hs
    rcases List.mem_cons.mp hs with rfl | hs
    · exact hu
    · rcases List.mem_cons.mp hs with rfl | hs
      · exact hv
      · cases hs
  obtain ⟨d0, rest, heq⟩ :
      ∃ d0 rest, serviceDirs (pyReplace v "-testnet" "") = d0 :: rest := by
    cases h : serviceDirs (pyReplace v "-testnet" "") with
    | nil => exact absurd h (serviceDirs_ne_nil _)
    | cons a l => exact ⟨a, l, rfl⟩
  have hbad0 : env.gitBranch (srcPath env d0) = "" := hbad d0 (by rw [heq]; simp)
  have hsfail : syncDirs env (serviceDirs (pyReplace v "-testnet" "")) =
      ([Event.gitBranchQuery (srcPath env d0)], false) := by
    rw [heq]; simp [syncDirs, hbad0]
  have hs2 : (syncDirs env (serviceDirs (pyReplace u "-testnet" ""))).2 = true :=
    syncDirs_snd_true env _ hgood
  have hne' : ¬ pyReplace v "-testnet" "" = pyReplace u "-testnet" "" :=
    fun h => hne h.symm
  have h1 := updateCmd_valid env false [u, v] hval (by simp)
  refine ⟨?_, ?_, ⟨d0, by rw [heq]; simp, ?_⟩⟩
  · rw [h1]
    simp [updateLoop, hs2, hsfail, hne']
  · rw [h1]
    simp [updateLoop, hs2, hsfail, hne', List.filter_append,
      syncDirs_filter_pull env _ hgood, Event.isGitPull]
  · rw [h1]
    simp [updateLoop, hs2, hsfail, hne']

/-- C4, witness: the theorem applied with the `counterparty` family
healthy and the `counterblock` checkout detached. -/
theorem c4_witness :
    (updateCmd envDetached false ["counterparty", "counterblock"]).2 = some 1
    ∧ (updateCmd envDetached false ["counterparty", "counterblock"]).1.filter
        Event.isGitPull =
        (serviceDirs (pyReplace "counterparty" "-testnet" "")).map
          (fun d => Event.gitPull (srcPath envDetached d)
            (envDetached.gitBranch (srcPath envDetached d)))
    ∧ ∃ d ∈ serviceDirs (pyReplace "counterblock" "-testnet" ""),
        Event.gitBranchQuery (srcPath envDetached d) ∈
          (updateCmd envDetached false ["counterparty", "counterblock"]).1 :=
  c4_detached_branch_aborts_keeps_earlier envDetached "counterparty" "counterblock"
    (by decide) (by decide) (by decide) (by decide) (by decide)

/-- C6: the empty string is not an updatable service, yet
`update` with the requested list consisting of exactly one empty string
is not rejected: the guard is literally `if args.services != ['',]:`, so
this input bypasses validation and the run proceeds to branch-query and
pull the directory `SCRIPTDIR/src/` and to issue a `restart ` backend
call, ending in a normal exit — contradicting the claim that any
unrecognized requested name causes failure with no pull or restart
performed. -/
theorem c6_empty_string_service_bypasses_validation :
    ("" ∉ UPDATE_CHOICES)
    ∧ mainRun envInstalled (Command.update false [""]) =
      { events := [Event.gitBranchQuery "/fednode/src/",
                   Event.gitPull "/fednode/src/" "master",
                   Event.composeCmd "restart "],
        exitCode := none, configFile := some ("master", "base") } := by
  decide

/-- C7: the repository sets of the three profiles extend one another in
declaration order (`counterblock` is `base` plus `counterblock`, `full`
is `counterblock` plus `counterwallet` and `armory-utxsvr`), giving the
superset chain full ⊇ P ⊇ base for every profile P in both the
repository sets and the reserved host-port sets, with no duplicate
repository in any profile. -/
theorem c7_profile_superset_chain :
    reposFor "counterblock" = reposFor "base" ++ ["counterblock"]
    ∧ reposFor "full" = reposFor "counterblock" ++ ["counterwallet", "armory-utxsvr"]
    ∧ (reposFor "base").all (fun r => r ∈ reposFor "counterblock") = true
    ∧ (reposFor "counterblock").all (fun r => r ∈ reposFor "full") = true
    ∧ HOST_PORTS_USED "counterblock" = HOST_PORTS_USED "base" ++ [4100, 14100]
    ∧ HOST_PORTS_USED "full" = HOST_PORTS_USED "counterblock" ++ [80, 443]
    ∧ (HOST_PORTS_USED "base").all (fun p => p ∈ HOST_PORTS_USED "counterblock") = true
    ∧ (HOST_PORTS_USED "counterblock").all (fun p => p ∈ HOST_PORTS_USED "full") = true
    ∧ (reposFor "base").Nodup ∧ (reposFor "counterblock").Nodup
    ∧ (reposFor "full").Nodup := by
  decide

/-- C8: the `counterparty` repository family spans the two checkouts
`counterparty-lib` and `counterparty-cli`, and its family step
branch-queries and pulls both of them together, while every other family
resolves to exactly the single checkout named after itself. -/
theorem c8_counterparty_family_two_checkouts (env : Env)
    (hbr : ∀ d, env.gitBranch d ≠ "") :
    serviceDirs "counterparty" = ["counterparty-lib", "counterparty-cli"]
    ∧ (∀ b, b ≠ "counterparty" → serviceDirs b = [b])
    ∧ (syncDirs env (serviceDirs "counterparty")).1 =
        [Event.gitBranchQuery (srcPath env "counterparty-lib"),
         Event.gitPull (srcPath env "counterparty-lib")
           (env.gitBranch (srcPath env "counterparty-lib")),
         Event.gitBranchQuery (srcPath env "counterparty-cli"),
         Event.gitPull (srcPath env "counterparty-cli")
           (env.gitBranch (srcPath env "counterparty-cli"))] := by
  refine ⟨rfl, fun b hb => by simp [serviceDirs, hb], ?_⟩
  simp [serviceDirs, syncDirs, hbr (srcPath env "counterparty-lib"),
    hbr (srcPath env "counterparty-cli")]

/-- C8, witness: the theorem applied to the installed environment. -/
theorem c8_witness :
    serviceDirs "counterparty" = ["counterparty-lib", "counterparty-cli"]
    ∧ (∀ b, b ≠ "counterparty" → serviceDirs b = [b])
    ∧ (syncDirs envInstalled (serviceDirs "counterparty")).1 =
        [Event.gitBranchQuery (srcPath envInstalled "counterparty-lib"),
         Event.gitPull (srcPath envInstalled "counterparty-lib")
           (envInstalled.gitBranch (srcPath envInstalled "counterparty-lib")),
         Event.gitBranchQuery (srcPath envInstalled "counterparty-cli"),
         Event.gitPull (srcPath envInstalled "counterparty-cli")
           (envInstalled.gitBranch (srcPath envInstalled "counterparty-cli"))] :=
  c8_counterparty_family_two_checkouts envInstalled
    (fun _ => (by decide : ("master" : String) ≠ ""))

/-- C5: running `install` when an Installed Configuration record already
exists exits with code 1 and an empty event trace — no port probe, no
clone, no record write, no backend call — and leaves the record exactly
as it was. -/
theorem c5_reinstall_rejected_no_side_effects (env : Env) (cfg br : String)
    (useSshUris : Bool) (h : env.configExists = true) :
    mainRun env (Command.install cfg br useSshUris) =
      { events := [], exitCode := some 1, configFile := installedFile env } := by
  simp [mainRun, h]

/-- C5, witness: the theorem applied to the installed environment. -/
theorem c5_witness :
    mainRun envInstalled (Command.install "full" "develop" true) =
      { events := [], exitCode := some 1, configFile := some ("master", "base") } :=
  c5_reinstall_rejected_no_side_effects envInstalled "full" "develop" true rfl

/-- C9: `uninstall` in the Installed state first issues the backend
`down` (all containers brought down), then removes the Installed
Configuration record, and the resulting record state is absent. -/
theorem c9_uninstall_down_then_remove (env : Env) (h : env.configExists = true) :
    mainRun env Command.uninstall =
      { events := [Event.composeCmd "down", Event.configRemove],
        exitCode := none, configFile := none } := by
  simp [mainRun, requireConfig, h]

/-- C9, witness: the theorem applied to the installed environment. -/
theorem c9_witness :
    mainRun envInstalled Command.uninstall =
      { events := [Event.composeCmd "down", Event.configRemove],
        exitCode := none, configFile := none } :=
  c9_uninstall_down_then_remove envInstalled rfl

/-- C10: the `docker_clean` verb terminates with `sys.exit(1)` in every
environment — even when every container and image removal succeeds,
there is no success exit path. -/
theorem c10_docker_clean_always_exit_one (env : Env) :
    (mainRun env Command.docker_clean).exitCode = some 1 := rfl

end Fednode
